import Mathlib

/-!
Verification of the chatterbox-whisper voice demo against its specification.

The Python sources (`chatterbox_demo.py`, `whisper_demo.py`,
`download_models.py`) are shallowly embedded below.  Side effects are made
explicit:

* the probe chain of `initialize_tts` and the generation calls of the
  concrete TTS backends are modelled by environment records carrying their
  outcomes (which backend resolved, whether a generation call raised, ...);
* the module-level globals `tts_system` / `available_voices` become an
  explicit `TTSState` threaded through `initialize_tts`;
* written audio files become `Artifact` values recording exactly the data
  each writing call depends on; the silent fallback WAV is additionally
  modelled down to its byte list;
* Python exceptions become `Option`/sum-type outcomes; a function that can
  only return (never raise) is a total Lean function.

Machine arithmetic: `len(text) * 0.1` and `min(..., 5.0)` are IEEE binary64
in Python, embedded here as exact rationals.  The two agree on every text
length: for `n ≥ 50` both sides are exactly `5.0`, and for `n < 50` the
binary64 evaluation of `int(22050 * min(n*0.1, 5.0))` was checked to equal
`2205 * n` for all `n`, so the rational embedding is exact.
-/

namespace ChatterboxWhisper

/-! ## String helpers mirroring the Python primitives used by the sources -/

/-- Python whitespace for `str.strip()` (ASCII part; the sources are only
ever called with ASCII guidance strings and user text). -/
def isPySpace (c : Char) : Bool :=
  c == ' ' || c == '\t' || c == '\n' || c == '\r' || c == '\x0b' || c == '\x0c'

/-- Python `str.strip()`: drop leading and trailing whitespace. -/
def pyStrip (s : String) : String :=
  ⟨((s.toList.dropWhile isPySpace).reverse.dropWhile isPySpace).reverse⟩

/-- Python `str.lower()` (ASCII case folding). -/
def pyLower (s : String) : String :=
  ⟨s.toList.map Char.toLower⟩

/-- Python `a.startswith(b)`: `b` is a prefix of `a` as a char sequence. -/
def pyStartsWith (a b : String) : Bool :=
  b.toList.isPrefixOf a.toList

/-- Membership of `needle` as a contiguous subsequence of `hay`. -/
def containsSeq (needle : List Char) : List Char → Bool
  | [] => needle.isEmpty
  | c :: t => needle.isPrefixOf (c :: t) || containsSeq needle t

/-- Python `needle in hay` on strings. -/
def strContains (hay needle : String) : Bool :=
  containsSeq needle.toList hay.toList

/-! ## Data model: voices, backends, artifacts, environments -/

/-- An entry of the voice catalog.  The Python code handles voices that are
dicts (with optional `name`, `id`, `language`, `lang`, `gender` keys) or
plain strings. -/
inductive Voice where
  | dictV (name id language lang gender : Option String)
  | strV (s : String)
deriving DecidableEq

/-- Display name used for matching, `voice.get('name', f'Voice {i+1}')` for a
dict and `str(voice)` otherwise (`chatterbox_demo.py:177`). -/
def voiceName (i : Nat) : Voice → String
  | .dictV (some n) _ _ _ _ => n
  | .dictV none _ _ _ _ => "Voice " ++ toString (i + 1)
  | .strV s => s

/-- The pyttsx3 branch sets the `voice` property to `selected_voice['id']`
only when the selected voice is a dict holding an `id`
(`chatterbox_demo.py:212-213`). -/
def voiceIdOf : Voice → Option String
  | .dictV _ i _ _ _ => i
  | .strV _ => none

/-- A resolved backend, described by the `hasattr` capability flags that
drive every dispatch in `chatterbox_demo.py`. -/
structure Backend where
  hasSynthesize : Bool
  hasTtsToFile : Bool
  isGTTS : Bool
  hasSay : Bool
  hasSaveToFile : Bool
  hasCloneVoice : Bool
  hasCreateVoice : Bool
deriving DecidableEq

/-- Which branch of `create_fallback_audio` produced a fallback artifact. -/
inductive FbKind where
  | gtts
  | silent
deriving DecidableEq

/-- Which voice-cloning call produced a clone artifact. -/
inductive CloneMethod where
  | cloneVoiceM
  | createVoiceM
  | genericRefM
deriving DecidableEq

/-- A written audio file, recording exactly the data the writing call
depends on. -/
inductive Artifact where
  | fallbackAudio (kind : FbKind) (text : String)
  | chatterboxWav (voice : Voice) (text : String)
  | coquiWav (text : String)
  | gttsAudio (lang : String) (text : String)
  | pyttsx3Wav (voiceId : Option String) (text : String)
  | cloneSynthWav (m : CloneMethod) (refPath : String) (vname : String) (text : String)
  | coquiCloneWav (refPath : String) (text : String)
deriving DecidableEq

/-- Deterministic environment for one adapter call: the result of
`initialize_tts` (`tts`, `voices`), whether the backend generation /
cloning call raises (and with which message), whether the two stages of
`create_fallback_audio` succeed, and whether `os.path.exists` holds for the
supplied reference path. -/
structure Env where
  tts : Option Backend
  voices : List Voice
  genRaises : Option String
  cloneRaises : Option String
  gttsFallbackWorks : Bool
  silentWriteOk : Bool
  refExists : Bool
deriving DecidableEq

/-- Result of one `synthesize_tts` / `clone_voice_from_audio` call:
whether `initialize_tts` was reached, whether a backend generation call was
made, and the returned artifact (`none` models Python returning `None`). -/
structure SynthTrace where
  initCalled : Bool
  genAttempted : Bool
  result : Option Artifact
deriving DecidableEq

/-! ## create_fallback_audio (`chatterbox_demo.py:297-343`) -/

/-- Fallback codec: try gTTS first; otherwise write the silent WAV; if even
that write raises, the outer handler returns `None`
(`chatterbox_demo.py:302-343`). -/
def create_fallback_audio (env : Env) (text : String) : Option Artifact :=
  if env.gttsFallbackWorks then some (.fallbackAudio .gtts text)
  else if env.silentWriteOk then some (.fallbackAudio .silent text)
  else none

/-- Silent-WAV duration in seconds:
`duration = min(len(text) * 0.1, 5.0)` (`chatterbox_demo.py:318`). -/
def fallbackDuration (text : String) : ℚ :=
  min ((text.length : ℚ) * (1 / 10)) 5

/-- `num_samples = int(sample_rate * duration)` with `sample_rate = 22050`
(`chatterbox_demo.py:319`); the value is nonnegative, so Python `int`
truncation is the floor. -/
def fallbackNumSamples (text : String) : Nat :=
  (⌊(22050 : ℚ) * fallbackDuration text⌋).toNat

/-- Little-endian encoding `n.to_bytes(w, 'little')`. -/
def toBytesLE : Nat → Nat → List Nat
  | 0, _ => []
  | w + 1, n => n % 256 :: toBytesLE w (n / 256)

/-- Little-endian decoding of a byte list. -/
def readLE : List Nat → Nat
  | [] => 0
  | b :: bs => b + 256 * readLE bs

/-- ASCII bytes of a tag string. -/
def asciiBytes (s : String) : List Nat :=
  s.toList.map Char.toNat

/-- The 44-byte WAV header written at `chatterbox_demo.py:322-334`, in
source order: RIFF tag, file size, WAVE and fmt tags, fmt chunk size,
audio format, channels, sample rate, byte rate, block align, bits per
sample, data tag, data size. -/
def wavHeader (numSamples : Nat) : List Nat :=
  asciiBytes "RIFF" ++ toBytesLE 4 (36 + numSamples * 2) ++
  asciiBytes "WAVE" ++ asciiBytes "fmt " ++ toBytesLE 4 16 ++
  toBytesLE 2 1 ++ toBytesLE 2 1 ++ toBytesLE 4 22050 ++
  toBytesLE 4 (22050 * 2) ++ toBytesLE 2 2 ++ toBytesLE 2 16 ++
  asciiBytes "data" ++ toBytesLE 4 (numSamples * 2)

/-- Whole byte content of the silent fallback WAV: header, then
`num_samples * 2` zero bytes (`chatterbox_demo.py:337`). -/
def silentWavBytes (text : String) : List Nat :=
  wavHeader (fallbackNumSamples text) ++
    List.replicate (fallbackNumSamples text * 2) 0

/-- Field access: `len` bytes starting at offset `off`. -/
def sliceBytes (bs : List Nat) (off len : Nat) : List Nat :=
  (bs.drop off).take len

/-! ## Voice resolution and synthesis (`chatterbox_demo.py:154-238`) -/

/-- The matching loop at `chatterbox_demo.py:176-180`: the first voice (in
catalog order, names indexed from `i`) whose display name is a prefix of
the selection label. -/
def findVoiceMatch (sel : String) : Nat → List Voice → Option Voice
  | _, [] => none
  | i, v :: rest =>
    if pyStartsWith sel (voiceName i v) then some v
    else findVoiceMatch sel (i + 1) rest

/-- Voice selection of `synthesize_tts` (`chatterbox_demo.py:170-184`).
`voices.head?` stands for `voices[0] if voices else None` in the sentinel
branch; in the no-match branch the source's bare `voices[0]` would raise
`IndexError` on an empty catalog, which the surrounding handler at line 236
turns into the same text fallback that the `selected_voice is None` check
produces, so `head?` is observationally equivalent there as well. -/
def resolveVoice (voices : List Voice) (sel : String) : Option Voice :=
  if sel = "Default (Fallback)" ∨ sel = "" then voices.head?
  else
    match findVoiceMatch sel 0 voices with
    | some v => some v
    | none => voices.head?

/-- gTTS language choice from the selection label
(`chatterbox_demo.py:202-206`). -/
def gttsLang (sel : String) : String :=
  if strContains (pyLower sel) "spanish" || strContains (pyLower sel) "español" then "es"
  else if strContains (pyLower sel) "french" || strContains (pyLower sel) "français" then "fr"
  else "en"

/-- Generation dispatch inside the `try` of `synthesize_tts`
(`chatterbox_demo.py:192-234`), in source order of the `hasattr` tests.
Any exception from a backend call (`env.genRaises`) is caught at line 236
and converted to `create_fallback_audio text`.  The say-only pyttsx3 branch
ends in the text fallback itself (line 227), and the unknown-system branch
makes no backend call before falling back (lines 228-231). -/
def generateAudio (env : Env) (tts : Backend) (sel : String) (v : Voice)
    (text : String) : SynthTrace :=
  if tts.hasSynthesize then
    match env.genRaises with
    | some _ => ⟨true, true, create_fallback_audio env text⟩
    | none => ⟨true, true, some (.chatterboxWav v text)⟩
  else if tts.hasTtsToFile then
    match env.genRaises with
    | some _ => ⟨true, true, create_fallback_audio env text⟩
    | none => ⟨true, true, some (.coquiWav text)⟩
  else if tts.isGTTS then
    match env.genRaises with
    | some _ => ⟨true, true, create_fallback_audio env text⟩
    | none => ⟨true, true, some (.gttsAudio (gttsLang sel) text)⟩
  else if tts.hasSay && tts.hasSaveToFile then
    match env.genRaises with
    | some _ => ⟨true, true, create_fallback_audio env text⟩
    | none => ⟨true, true, some (.pyttsx3Wav (voiceIdOf v) text)⟩
  else if tts.hasSay then
    ⟨true, true, create_fallback_audio env text⟩
  else
    ⟨true, false, create_fallback_audio env text⟩

/-- `synthesize_tts(text, voice_selection)` (`chatterbox_demo.py:154-238`).
`env.tts` / `env.voices` are the pair `initialize_tts()` returns for this
call. -/
def synthesize_tts (env : Env) (text sel : String) : SynthTrace :=
  if text = "" ∨ pyStrip text = "" then
    ⟨false, false, create_fallback_audio env "Please provide some text to synthesize."⟩
  else
    match env.tts with
    | none => ⟨true, false, create_fallback_audio env text⟩
    | some tts =>
      if env.voices = [] then ⟨true, false, create_fallback_audio env text⟩
      else
        match resolveVoice env.voices sel with
        | none => ⟨true, false, create_fallback_audio env text⟩
        | some v => generateAudio env tts sel v text

/-- `clone_voice_from_audio(text, reference_audio_path, voice_name)`
(`chatterbox_demo.py:240-295`).  `synthesize_tts(text)` calls use the
default selection `"Default (Fallback)"`.  Both the outer handler at line
293 and the inner Coqui handler at line 286 degrade to `synthesize_tts`;
`env.cloneRaises` models an exception inside the cloning `try` blocks. -/
def clone_voice_from_audio (env : Env) (text : String) (refPath : Option String)
    (vname : String) : SynthTrace :=
  if text = "" ∨ pyStrip text = "" then
    ⟨false, false, create_fallback_audio env "Please provide text to synthesize."⟩
  else
    match refPath with
    | none => synthesize_tts env text "Default (Fallback)"
    | some p =>
      if p = "" ∨ env.refExists = false then
        synthesize_tts env text "Default (Fallback)"
      else
        match env.tts with
        | none => ⟨true, false, create_fallback_audio env text⟩
        | some tts =>
          if tts.hasCloneVoice || tts.hasCreateVoice then
            match env.cloneRaises with
            | some _ => synthesize_tts env text "Default (Fallback)"
            | none =>
              if tts.hasCloneVoice then
                ⟨true, true, some (.cloneSynthWav .cloneVoiceM p vname text)⟩
              else if tts.hasCreateVoice then
                ⟨true, true, some (.cloneSynthWav .createVoiceM p vname text)⟩
              else
                ⟨true, true, some (.cloneSynthWav .genericRefM p vname text)⟩
          else if tts.hasTtsToFile then
            match env.cloneRaises with
            | some _ => synthesize_tts env text "Default (Fallback)"
            | none => ⟨true, true, some (.coquiCloneWav p text)⟩
          else
            synthesize_tts env text "Default (Fallback)"

/-! ## Backend cache (`chatterbox_demo.py:7-122`) -/

/-- Outcome of one run of the probe chain (methods 1-4 of
`initialize_tts`): the backend it would resolve (or `none`), the voices it
would publish, and how many backend construction attempts it performs. -/
structure ProbeEnv where
  resolved : Option Backend
  probedVoices : List Voice
  constructions : Nat
deriving DecidableEq

/-- The module globals `tts_system` and `available_voices`. -/
structure TTSState where
  tts_system : Option Backend
  available_voices : List Voice
deriving DecidableEq

/-- What one `initialize_tts()` call yields: the returned pair, the global
state afterwards, and how many construction attempts the call performed. -/
structure InitResult where
  backend : Option Backend
  voices : List Voice
  state : TTSState
  constructions : Nat
deriving DecidableEq

/-- `initialize_tts` (`chatterbox_demo.py:11-122`): return the cache when
`tts_system is not None` (lines 15-16, no probe), otherwise run the probe
chain and publish its outcome. -/
def initialize_tts (probe : ProbeEnv) (s : TTSState) : InitResult :=
  match s.tts_system with
  | some b => ⟨some b, s.available_voices, s, 0⟩
  | none =>
    ⟨probe.resolved, probe.probedVoices,
      ⟨probe.resolved, probe.probedVoices⟩, probe.constructions⟩

/-! ## get_voice_options (`chatterbox_demo.py:124-152`) -/

/-- The label-building loop at `chatterbox_demo.py:132-148`: dicts get
`name (lang) - gender` with empty parts dropped, other voices their
string form. -/
def formatVoiceLabel (i : Nat) : Voice → String
  | .dictV nameO _ languageO langO genderO =>
    let name := nameO.getD ("Voice " ++ toString (i + 1))
    let lang := languageO.getD (langO.getD "")
    let gender := genderO.getD ""
    (name ++ (if lang = "" then "" else " (" ++ lang ++ ")")) ++
      (if gender = "" then "" else " - " ++ gender)
  | .strV s => s

/-- Index-aware map of `formatVoiceLabel` over the catalog. -/
def labelList : Nat → List Voice → List String
  | _, [] => []
  | i, v :: rest => formatVoiceLabel i v :: labelList (i + 1) rest

/-- `get_voice_options()` (`chatterbox_demo.py:124-152`): resolve, return
the lone sentinel on an empty catalog, else the labels with the sentinel
appended. -/
def get_voice_options (probe : ProbeEnv) (s : TTSState) : List String :=
  let voices := (initialize_tts probe s).voices
  if voices = [] then ["Default (Fallback)"]
  else labelList 0 voices ++ ["Default (Fallback)"]

/-! ## Retry policy (`download_models.py:27-49`) -/

/-- What one `ChatterboxTTS.from_pretrained` construction attempt does. -/
inductive AttemptOutcome where
  | success
  | failure (msg : String)
deriving DecidableEq

/-- The rate-limit classifier of `download_models.py:42`:
`"429" in str(e) or "rate limit" in str(e).lower()`. -/
def isRateLimited (msg : String) : Bool :=
  strContains msg "429" || strContains (pyLower msg) "rate limit"

/-- Result of running the download loop: construction attempts made, the
`time.sleep` durations performed in order, and either the returned value or
the propagated failure message. -/
inductive DownloadOutcome where
  | returned (b : Bool)
  | raised (msg : String)
deriving DecidableEq

structure DownloadRun where
  attempts : Nat
  sleeps : List Nat
  outcome : DownloadOutcome
deriving DecidableEq

/-- The `for attempt in range(max_retries)` loop of
`download_models.py:28-49`; `f attempt` is what the construction attempt
with that index does.  On a rate-limited failure before the last attempt it
sleeps `(attempt + 1) * 30` seconds and continues; every other failure is
re-raised at line 49.  Fuel counts the remaining iterations; exhausting it
is the loop falling through to `return False` (line 51). -/
def downloadLoop (f : Nat → AttemptOutcome) (maxRetries : Nat) :
    Nat → Nat → List Nat → DownloadRun
  | 0, attempt, sleeps => ⟨attempt, sleeps, .returned false⟩
  | fuel + 1, attempt, sleeps =>
    match f attempt with
    | .success => ⟨attempt + 1, sleeps, .returned true⟩
    | .failure msg =>
      if isRateLimited msg then
        if attempt < maxRetries - 1 then
          downloadLoop f maxRetries fuel (attempt + 1)
            (sleeps ++ [(attempt + 1) * 30])
        else ⟨attempt + 1, sleeps, .raised msg⟩
      else ⟨attempt + 1, sleeps, .raised msg⟩

/-- The retrying part of `download_chatterbox_models`
(`download_models.py:27-49`) with `max_retries = 3`. -/
def download_chatterbox_models (f : Nat → AttemptOutcome) : DownloadRun :=
  downloadLoop f 3 3 0 []

/-! ## transcribe_audio (`whisper_demo.py:38-52`) -/

/-- What the `model.transcribe` call does: either the list of segment
texts, or an exception with a message. -/
inductive TranscribeCall where
  | segments (texts : List String)
  | raised (msg : String)
deriving DecidableEq

/-- Module state of `whisper_demo.py`: whether a Whisper model loaded, and
the outcome of the transcription call for the given audio. -/
structure WhisperEnv where
  modelLoaded : Bool
  call : TranscribeCall
deriving DecidableEq

/-- `transcribe_audio(audio_path)` (`whisper_demo.py:38-52`): error string
when the model never loaded, joined segment texts on success, and a
prefixed error string when transcription raises. -/
def transcribe_audio (env : WhisperEnv) (audioPath : String) : String :=
  if env.modelLoaded = false then "Error: Whisper model failed to load"
  else
    match env.call with
    | .segments texts => String.intercalate " " texts
    | .raised msg => "Error transcribing audio: " ++ msg

/-! ## Spec-side definitions and concrete demo data -/

/-- Duration the specification asserts for the silent fallback WAV, written
from the spec's words for comparison with `fallbackDuration`:
`clamp(len(text) * 0.1, 1.0, 5.0)`, a floor of one second and a cap of
five. -/
def claimedClampDuration (text : String) : ℚ :=
  max 1 (min ((text.length : ℚ) * (1 / 10)) 5)

/-- The two-voice catalog `[{name: "Ava"}, {name: "Ben"}]` from the spec's
voice-resolution scenario (with Ava's display metadata filled in). -/
def demoCatalog : List Voice :=
  [.dictV (some "Ava") none (some "en") none (some "female"),
   .dictV (some "Ben") none none none none]

/-- A concrete backend that only has a `synthesize` method. -/
def demoBackend : Backend :=
  ⟨true, false, false, false, false, false, false⟩

/-- A probe outcome that resolves `demoBackend` after two construction
attempts. -/
def demoProbe : ProbeEnv :=
  ⟨some demoBackend, demoCatalog, 2⟩

/-- An environment with no resolvable backend in which both stages of the
fallback codec work. -/
def noBackendEnv : Env :=
  ⟨none, [], none, none, true, true, false⟩

/-! ## Shared lemmas -/

theorem create_fallback_audio_none_iff (env : Env) (t : String) :
    create_fallback_audio env t = none ↔
      env.gttsFallbackWorks = false ∧ env.silentWriteOk = false := by
  unfold create_fallback_audio
  rcases h1 : env.gttsFallbackWorks <;> rcases h2 : env.silentWriteOk <;>
    simp [h1, h2]

theorem fallbackNumSamples_eq (t : String) :
    fallbackNumSamples t = min (2205 * t.length) 110250 := by
  unfold fallbackNumSamples fallbackDuration
  rcases le_or_lt t.length 50 with h | h
  · have hq : ((t.length : ℚ)) * (1 / 10) ≤ 5 := by
      have : ((t.length : ℚ)) ≤ 50 := by exact_mod_cast h
      linarith
    rw [min_eq_left hq]
    have hcast : (22050 : ℚ) * ((t.length : ℚ) * (1 / 10)) =
        ((2205 * t.length : ℕ) : ℚ) := by push_cast; ring
    rw [hcast, Int.floor_natCast]
    omega
  · have hq : (5 : ℚ) ≤ ((t.length : ℚ)) * (1 / 10) := by
      have : (50 : ℚ) ≤ ((t.length : ℚ)) := by exact_mod_cast h.le
      linarith
    rw [min_eq_right hq]
    have hcast : (22050 : ℚ) * (5 : ℚ) = ((110250 : ℕ) : ℚ) := by norm_num
    rw [hcast, Int.floor_natCast]
    omega

theorem wavHeader_explicit (n : Nat) :
    wavHeader n =
      82 :: 73 :: 70 :: 70 ::
      (36 + n * 2) % 256 :: (36 + n * 2) / 256 % 256 ::
      (36 + n * 2) / 256 / 256 % 256 :: (36 + n * 2) / 256 / 256 / 256 % 256 ::
      87 :: 65 :: 86 :: 69 :: 102 :: 109 :: 116 :: 32 ::
      16 :: 0 :: 0 :: 0 :: 1 :: 0 :: 1 :: 0 ::
      34 :: 86 :: 0 :: 0 :: 68 :: 172 :: 0 :: 0 :: 2 :: 0 :: 16 :: 0 ::
      100 :: 97 :: 116 :: 97 ::
      (n * 2) % 256 :: (n * 2) / 256 % 256 ::
      (n * 2) / 256 / 256 % 256 :: (n * 2) / 256 / 256 / 256 % 256 :: [] := rfl

/-! ## Claim C1 -/

/-- C1 fails on the code: `create_fallback_audio` computes
`duration = min(len(text) * 0.1, 5.0)` with no lower clamp, so the
eleven-character floor the claim asserts does not exist.  At the
two-character text `"Hi"` the code's duration is `0.2` seconds while the
claimed `clamp(0.2, 1.0, 5.0)` is `1.0`. -/
theorem fallback_duration_floor_fails :
    fallbackDuration "Hi" = 1 / 5 ∧ claimedClampDuration "Hi" = 1 ∧
    fallbackDuration "Hi" ≠ claimedClampDuration "Hi" := by
  have hl : "Hi".length = 2 := rfl
  refine ⟨?_, ?_, ?_⟩
  · rw [fallbackDuration, hl, min_eq_left (by norm_num)]
    norm_num
  · rw [claimedClampDuration, hl, min_eq_left (by norm_num),
      max_eq_left (by norm_num)]
  · rw [fallbackDuration, claimedClampDuration, hl,
      min_eq_left (by norm_num), max_eq_left (by norm_num)]
    norm_num

/-- C1 (amended): the silent fallback WAV's duration is
`min(len(text) * 0.1, 5.0)` seconds — one tenth of a second per character
capped at five seconds, with no lower floor (empty text yields a
zero-duration artifact) — and the sample count is accordingly
`min(2205 * len(text), 110250)`. -/
theorem fallback_duration_cap_no_floor (t : String) :
    (t.length ≤ 50 → fallbackDuration t = (t.length : ℚ) / 10) ∧
    (50 ≤ t.length → fallbackDuration t = 5) ∧
    fallbackNumSamples t = min (2205 * t.length) 110250 := by
  refine ⟨?_, ?_, fallbackNumSamples_eq t⟩
  · intro h
    have hq : ((t.length : ℚ)) * (1 / 10) ≤ 5 := by
      have : ((t.length : ℚ)) ≤ 50 := by exact_mod_cast h
      linarith
    rw [fallbackDuration, min_eq_left hq]
    ring
  · intro h
    have hq : (5 : ℚ) ≤ ((t.length : ℚ)) * (1 / 10) := by
      have : (50 : ℚ) ≤ ((t.length : ℚ)) := by exact_mod_cast h
      linarith
    rw [fallbackDuration, min_eq_right hq]

/-- Witness for the amended C1 at the spec's own scenario text
`"Hello world"` (11 characters, 1.1 seconds). -/
theorem fallback_duration_cap_no_floor_witness :
    "Hello world".length ≤ 50 ∧
    fallbackDuration "Hello world" = ("Hello world".length : ℚ) / 10 :=
  ⟨by decide, (fallback_duration_cap_no_floor "Hello world").1 (by decide)⟩

theorem wavHeader_len (t : String) :
    (wavHeader (fallbackNumSamples t)).length = 44 := by
  rw [wavHeader_explicit]; simp

theorem silentWav_split (t : String) :
    silentWavBytes t =
      wavHeader (fallbackNumSamples t) ++
        List.replicate (2 * fallbackNumSamples t) 0 := by
  rw [silentWavBytes, Nat.mul_comm 2 (fallbackNumSamples t)]

theorem silentWav_riffTag (t : String) :
    sliceBytes (silentWavBytes t) 0 4 = asciiBytes "RIFF" := by
  rw [silentWavBytes, wavHeader_explicit]
  simp [sliceBytes, asciiBytes]

theorem silentWav_riffSize (t : String) :
    readLE (sliceBytes (silentWavBytes t) 4 4) =
      36 + 2 * fallbackNumSamples t := by
  have hb : fallbackNumSamples t ≤ 110250 := by
    have := fallbackNumSamples_eq t
    omega
  rw [silentWavBytes, wavHeader_explicit]
  simp [sliceBytes, readLE]
  omega

theorem silentWav_waveTag (t : String) :
    sliceBytes (silentWavBytes t) 8 4 = asciiBytes "WAVE" := by
  rw [silentWavBytes, wavHeader_explicit]
  simp [sliceBytes, asciiBytes]

theorem silentWav_fmtTag (t : String) :
    sliceBytes (silentWavBytes t) 12 4 = asciiBytes "fmt " := by
  rw [silentWavBytes, wavHeader_explicit]
  simp [sliceBytes, asciiBytes]

theorem silentWav_fmtSize (t : String) :
    readLE (sliceBytes (silentWavBytes t) 16 4) = 16 := by
  rw [silentWavBytes, wavHeader_explicit]
  simp [sliceBytes, readLE]

theorem silentWav_audioFormat (t : String) :
    readLE (sliceBytes (silentWavBytes t) 20 2) = 1 := by
  rw [silentWavBytes, wavHeader_explicit]
  simp [sliceBytes, readLE]

theorem silentWav_channels (t : String) :
    readLE (sliceBytes (silentWavBytes t) 22 2) = 1 := by
  rw [silentWavBytes, wavHeader_explicit]
  simp [sliceBytes, readLE]

theorem silentWav_sampleRate (t : String) :
    readLE (sliceBytes (silentWavBytes t) 24 4) = 22050 := by
  rw [silentWavBytes, wavHeader_explicit]
  simp [sliceBytes, readLE]

theorem silentWav_byteRate (t : String) :
    readLE (sliceBytes (silentWavBytes t) 28 4) = 44100 := by
  rw [silentWavBytes, wavHeader_explicit]
  simp [sliceBytes, readLE]

theorem silentWav_blockAlign (t : String) :
    readLE (sliceBytes (silentWavBytes t) 32 2) = 2 := by
  rw [silentWavBytes, wavHeader_explicit]
  simp [sliceBytes, readLE]

theorem silentWav_bitsPerSample (t : String) :
    readLE (sliceBytes (silentWavBytes t) 34 2) = 16 := by
  rw [silentWavBytes, wavHeader_explicit]
  simp [sliceBytes, readLE]

theorem silentWav_dataTag (t : String) :
    sliceBytes (silentWavBytes t) 36 4 = asciiBytes "data" := by
  rw [silentWavBytes, wavHeader_explicit]
  simp [sliceBytes, asciiBytes]

theorem silentWav_dataSize (t : String) :
    readLE (sliceBytes (silentWavBytes t) 40 4) =
      2 * fallbackNumSamples t := by
  have hb : fallbackNumSamples t ≤ 110250 := by
    have := fallbackNumSamples_eq t
    omega
  rw [silentWavBytes, wavHeader_explicit]
  simp [sliceBytes, readLE]
  omega

theorem silentWav_dataZero (t : String) :
    (silentWavBytes t).drop 44 =
      List.replicate (2 * fallbackNumSamples t) 0 := by
  rw [silentWavBytes, wavHeader_explicit, Nat.mul_comm 2 (fallbackNumSamples t)]
  simp

theorem silentWav_totalLen (t : String) :
    (silentWavBytes t).length = 44 + 2 * fallbackNumSamples t := by
  rw [silentWavBytes, wavHeader_explicit]
  simp
  omega

/-! ## Claim C4 -/

/-- C4: every silent fallback WAV starts with the exact 44-byte PCM header
— `RIFF` tag, RIFF size `36 + 2n`, `WAVE`, `fmt ` with chunk size 16, audio
format 1 (PCM), 1 channel, sample rate 22050, byte rate 44100, block align
2, 16 bits per sample, then a `data` chunk of declared size `2n` —
followed by exactly `2n` zero sample bytes, where `n` is the sample
count. -/
theorem silent_wav_header_exact (t : String) :
    (wavHeader (fallbackNumSamples t)).length = 44 ∧
    silentWavBytes t =
      wavHeader (fallbackNumSamples t) ++
        List.replicate (2 * fallbackNumSamples t) 0 ∧
    sliceBytes (silentWavBytes t) 0 4 = asciiBytes "RIFF" ∧
    readLE (sliceBytes (silentWavBytes t) 4 4) =
      36 + 2 * fallbackNumSamples t ∧
    sliceBytes (silentWavBytes t) 8 4 = asciiBytes "WAVE" ∧
    sliceBytes (silentWavBytes t) 12 4 = asciiBytes "fmt " ∧
    readLE (sliceBytes (silentWavBytes t) 16 4) = 16 ∧
    readLE (sliceBytes (silentWavBytes t) 20 2) = 1 ∧
    readLE (sliceBytes (silentWavBytes t) 22 2) = 1 ∧
    readLE (sliceBytes (silentWavBytes t) 24 4) = 22050 ∧
    readLE (sliceBytes (silentWavBytes t) 28 4) = 44100 ∧
    readLE (sliceBytes (silentWavBytes t) 32 2) = 2 ∧
    readLE (sliceBytes (silentWavBytes t) 34 2) = 16 ∧
    sliceBytes (silentWavBytes t) 36 4 = asciiBytes "data" ∧
    readLE (sliceBytes (silentWavBytes t) 40 4) = 2 * fallbackNumSamples t ∧
    (silentWavBytes t).drop 44 = List.replicate (2 * fallbackNumSamples t) 0 ∧
    (silentWavBytes t).length = 44 + 2 * fallbackNumSamples t :=
  ⟨wavHeader_len t, silentWav_split t, silentWav_riffTag t, silentWav_riffSize t,
    silentWav_waveTag t, silentWav_fmtTag t, silentWav_fmtSize t,
    silentWav_audioFormat t, silentWav_channels t, silentWav_sampleRate t,
    silentWav_byteRate t, silentWav_blockAlign t, silentWav_bitsPerSample t,
    silentWav_dataTag t, silentWav_dataSize t, silentWav_dataZero t,
    silentWav_totalLen t⟩

/-! ## Claim C2 -/

/-- C2 fails on the code as universally stated: caching happens only when a
backend was resolved.  After a probe run that resolves nothing
(`tts_system` still `None`), the next `initialize_tts()` call re-runs the
probe chain — here a probe performing one construction attempt is re-run
by the second call. -/
theorem backend_cache_reprobes_on_failure :
    (initialize_tts ⟨none, [], 1⟩
      ((initialize_tts ⟨none, [], 1⟩ ⟨none, []⟩).state)).constructions ≠ 0 := by
  decide

/-- C2 (amended): once a resolution call has cached a backend
(`tts_system is not None`), any further call returns the identical cached
backend and voices, leaves the state unchanged and performs zero
construction attempts; when resolution failed, nothing is cached and a
call on the empty cache runs the full probe chain. -/
theorem backend_cache_idempotent (probe : ProbeEnv) (s : TTSState) :
    (∀ b, (initialize_tts probe s).state.tts_system = some b →
      initialize_tts probe ((initialize_tts probe s).state) =
        ⟨some b, (initialize_tts probe s).state.available_voices,
          (initialize_tts probe s).state, 0⟩) ∧
    (s.tts_system = none →
      (initialize_tts probe s).constructions = probe.constructions) := by
  constructor
  · intro b hb
    rw [initialize_tts, hb]
  · intro hn
    rw [initialize_tts, hn]

/-- Witness for the amended C2: a probe that resolves `demoBackend` after
two construction attempts is cached by the first call; the second call
returns it with zero construction attempts. -/
theorem backend_cache_idempotent_witness :
    initialize_tts demoProbe ((initialize_tts demoProbe ⟨none, []⟩).state) =
      ⟨some demoBackend, demoCatalog, ⟨some demoBackend, demoCatalog⟩, 0⟩ :=
  ((backend_cache_idempotent demoProbe ⟨none, []⟩).1 demoBackend
    (by decide)).trans (by decide)

/-! ## Claim C3 -/

/-- C3: the pre-download retry policy makes at most three construction
attempts; a failure classified as rate-limiting (text containing `429`, or
`rate limit` case-insensitively) before the last attempt sleeps
`attempt_index * 30` seconds and retries, propagating only from the final
attempt; any other failure propagates immediately with no retry and no
sleep.  The statement characterizes the loop for every environment `f`. -/
theorem retry_policy_characterization (f : Nat → AttemptOutcome) :
    download_chatterbox_models f =
      match f 0 with
      | .success => ⟨1, [], .returned true⟩
      | .failure m0 =>
        if isRateLimited m0 then
          match f 1 with
          | .success => ⟨2, [30], .returned true⟩
          | .failure m1 =>
            if isRateLimited m1 then
              match f 2 with
              | .success => ⟨3, [30, 60], .returned true⟩
              | .failure m2 => ⟨3, [30, 60], .raised m2⟩
            else ⟨2, [30], .raised m1⟩
        else ⟨1, [], .raised m0⟩ := by
  rcases h0 : f 0 with _ | m0
  · simp [download_chatterbox_models, downloadLoop, h0]
  · rcases hr0 : isRateLimited m0
    · simp [download_chatterbox_models, downloadLoop, h0, hr0]
    · rcases h1 : f 1 with _ | m1
      · simp [download_chatterbox_models, downloadLoop, h0, hr0, h1]
      · rcases hr1 : isRateLimited m1
        · simp [download_chatterbox_models, downloadLoop, h0, hr0, h1, hr1]
        · rcases h2 : f 2 with _ | m2 <;>
            simp [download_chatterbox_models, downloadLoop, h0, hr0, h1, hr1, h2]

/-! ## Claim C5 -/

theorem findVoiceMatch_mem (sel : String) :
    ∀ (voices : List Voice) (i : Nat) (v : Voice),
      findVoiceMatch sel i voices = some v →
      ∃ j, ∃ h : j < voices.length,
        v = voices.get ⟨j, h⟩ ∧
          pyStartsWith sel (voiceName (i + j) v) = true := by
  intro voices
  induction voices with
  | nil => intro i v h; simp [findVoiceMatch] at h
  | cons hd tl ih =>
    intro i v h
    rcases hm : pyStartsWith sel (voiceName i hd)
    · rw [findVoiceMatch, hm] at h
      simp at h
      obtain ⟨j, hj, hv, hp⟩ := ih (i + 1) v h
      refine ⟨j + 1, by simpa using Nat.succ_lt_succ hj, ?_, ?_⟩
      · simpa using hv
      · have harith : i + 1 + j = i + (j + 1) := by omega
        rw [← harith]; exact hp
    · rw [findVoiceMatch, hm] at h
      simp at h
      subst h
      exact ⟨0, by simp, rfl, by simpa using hm⟩

/-- C5: with a non-empty catalog, the sentinel `"Default (Fallback)"` and
the empty selection resolve to the first voice; otherwise the selection
resolves to the first voice whose display name is a prefix of the label
(so any match really is a prefix match at a catalog position), and an
unmatched label falls back to the first voice; with an empty catalog
`synthesize_tts` never raises: it returns the text fallback. -/
theorem voice_resolution_spec (voices : List Voice) (sel : String) :
    (∀ hne : voices ≠ [],
      ((sel = "Default (Fallback)" ∨ sel = "") →
        resolveVoice voices sel = some (voices.head hne)) ∧
      (∀ v, findVoiceMatch sel 0 voices = some v →
        ¬(sel = "Default (Fallback)" ∨ sel = "") →
        resolveVoice voices sel = some v) ∧
      (findVoiceMatch sel 0 voices = none →
        resolveVoice voices sel = some (voices.head hne))) ∧
    (∀ v, findVoiceMatch sel 0 voices = some v →
      ∃ j, ∃ h : j < voices.length,
        v = voices.get ⟨j, h⟩ ∧ pyStartsWith sel (voiceName j v) = true) ∧
    (∀ (env : Env) (text : String), env.voices = [] →
      ¬(text = "" ∨ pyStrip text = "") →
      synthesize_tts env text sel =
        ⟨true, false, create_fallback_audio env text⟩) := by
  refine ⟨?_, ?_, ?_⟩
  · intro hne
    have hhead : voices.head? = some (voices.head hne) :=
      List.head?_eq_head hne
    refine ⟨?_, ?_, ?_⟩
    · intro hsel
      rw [resolveVoice, if_pos hsel, hhead]
    · intro v hfind hsel
      rw [resolveVoice, if_neg hsel, hfind]
    · intro hfind
      rw [resolveVoice]
      rcases em (sel = "Default (Fallback)" ∨ sel = "") with hsel | hsel
      · rw [if_pos hsel, hhead]
      · rw [if_neg hsel, hfind, hhead]
  · intro v hfind
    simpa using findVoiceMatch_mem sel voices 0 v hfind
  · intro env text hv htext
    rw [synthesize_tts, if_neg htext]
    rcases ht : env.tts with _ | tts
    · rfl
    · simp [hv]

/-- Witness for C5 at the spec's scenario: catalog `[Ava, Ben]` and the
label `"Ava (en) - female"` resolve to the Ava record by prefix match. -/
theorem voice_resolution_spec_witness :
    resolveVoice demoCatalog "Ava (en) - female" =
      some (Voice.dictV (some "Ava") none (some "en") none (some "female")) :=
  ((voice_resolution_spec demoCatalog "Ava (en) - female").1
    (by decide)).2.1 _ (by decide) (by decide)

/-! ## Claim C6 -/

/-- C6: text that is empty after trimming routes both `synthesize_tts` and
`clone_voice_from_audio` to the fallback codec with a guidance placeholder
message (not the original text), before `initialize_tts` is reached and
with no backend generation call. -/
theorem blank_text_guidance_fallback (env : Env) (text sel : String)
    (refPath : Option String) (vname : String) (h : pyStrip text = "") :
    synthesize_tts env text sel =
      ⟨false, false,
        create_fallback_audio env "Please provide some text to synthesize."⟩ ∧
    clone_voice_from_audio env text refPath vname =
      ⟨false, false,
        create_fallback_audio env "Please provide text to synthesize."⟩ := by
  constructor
  · rw [synthesize_tts, if_pos (Or.inr h)]
  · rw [clone_voice_from_audio.eq_def, if_pos (Or.inr h)]

/-- Witness for C6 at the whitespace-only text `"  "`. -/
theorem blank_text_guidance_fallback_witness :
    pyStrip "  " = "" ∧
    synthesize_tts noBackendEnv "  " "Default (Fallback)" =
      ⟨false, false,
        create_fallback_audio noBackendEnv
          "Please provide some text to synthesize."⟩ :=
  ⟨by decide,
    (blank_text_guidance_fallback noBackendEnv "  " "Default (Fallback)"
      none "X" (by decide)).1⟩

/-! ## Claim C7 -/

/-- C7 fails on the code as stated for every non-empty text: at the
non-empty, whitespace-only text `" "` the two calls return fallback
artifacts carrying different guidance messages (`"Please provide text to
synthesize."` versus `"Please provide some text to synthesize."`), so
clone and synthesize do not behave identically there. -/
theorem clone_degrade_blank_text_differs :
    (" " : String) ≠ "" ∧
    clone_voice_from_audio noBackendEnv " " none "X" ≠
      synthesize_tts noBackendEnv " " "Default (Fallback)" := by
  exact ⟨by decide, by decide⟩

/-- C7 (amended): for every text that is non-empty after trimming, a clone
call whose reference-audio path is absent, empty or not an existing file
behaves identically to `synthesize_tts` of the same text with the default
selection and no reference, with no error reported. -/
theorem clone_missing_ref_equals_synthesize (env : Env) (text : String)
    (refPath : Option String) (vname : String)
    (htext : ¬(text = "" ∨ pyStrip text = ""))
    (href : refPath = none ∨ refPath = some "" ∨ env.refExists = false) :
    clone_voice_from_audio env text refPath vname =
      synthesize_tts env text "Default (Fallback)" := by
  rw [clone_voice_from_audio.eq_def, if_neg htext]
  rcases refPath with _ | p
  · rfl
  · rcases href with h | h | h
    · exact absurd h (by simp)
    · have hp : p = "" := by injection h
      rw [hp]
      simp
    · simp [h]

/-- Witness for the amended C7 at the spec's scenario
`clone("Hi", null, "X")`. -/
theorem clone_missing_ref_equals_synthesize_witness :
    clone_voice_from_audio noBackendEnv "Hi" none "X" =
      synthesize_tts noBackendEnv "Hi" "Default (Fallback)" :=
  clone_missing_ref_equals_synthesize noBackendEnv "Hi" none "X"
    (by decide) (Or.inl rfl)

/-! ## Claim C8 helper lemmas -/

theorem generateAudio_raise (env : Env) (tts : Backend) (sel : String)
    (v : Voice) (text : String) (e : String) (hgen : env.genRaises = some e) :
    (generateAudio env tts sel v text).result = create_fallback_audio env text := by
  rw [generateAudio]
  split_ifs <;> simp [hgen]

theorem generateAudio_shape (env : Env) (tts : Backend) (sel : String)
    (v : Voice) (text : String) :
    (generateAudio env tts sel v text).result = create_fallback_audio env text ∨
    ∃ a, (generateAudio env tts sel v text).result = some a := by
  rw [generateAudio]
  split_ifs <;> rcases hg : env.genRaises with _ | e <;> simp [hg]

theorem synthesize_raise_fallback (env : Env) (text sel : String) (e : String)
    (htext : ¬(text = "" ∨ pyStrip text = ""))
    (hgen : env.genRaises = some e) :
    (synthesize_tts env text sel).result = create_fallback_audio env text := by
  rw [synthesize_tts, if_neg htext]
  rcases ht : env.tts with _ | tts
  · simp [ht]
  · simp only [ht]
    by_cases hv : env.voices = []
    · simp [hv]
    · rw [if_neg hv]
      rcases hr : resolveVoice env.voices sel with _ | v
      · simp [hr]
      · simp only [hr]
        exact generateAudio_raise env tts sel v text e hgen

theorem synthesize_result_shape (env : Env) (text sel : String)
    (htext : ¬(text = "" ∨ pyStrip text = "")) :
    (synthesize_tts env text sel).result = create_fallback_audio env text ∨
    ∃ a, (synthesize_tts env text sel).result = some a := by
  rw [synthesize_tts, if_neg htext]
  rcases ht : env.tts with _ | tts
  · simp [ht]
  · simp only [ht]
    by_cases hv : env.voices = []
    · simp [hv]
    · rw [if_neg hv]
      rcases hr : resolveVoice env.voices sel with _ | v
      · simp [hr]
      · simp only [hr]
        exact generateAudio_shape env tts sel v text

theorem clone_raise_fallback (env : Env) (text : String)
    (refPath : Option String) (vname : String) (e e2 : String)
    (htext : ¬(text = "" ∨ pyStrip text = ""))
    (hgen : env.genRaises = some e) (hclone : env.cloneRaises = some e2) :
    (clone_voice_from_audio env text refPath vname).result =
      create_fallback_audio env text := by
  rw [clone_voice_from_audio.eq_def, if_neg htext]
  rcases refPath with _ | p
  · exact synthesize_raise_fallback env text _ e htext hgen
  · dsimp only
    by_cases hpe : (p = "" ∨ env.refExists = false)
    · rw [if_pos hpe]
      exact synthesize_raise_fallback env text _ e htext hgen
    · rw [if_neg hpe]
      rcases ht : env.tts with _ | tts
      · simp [ht]
      · simp only [ht]
        by_cases hcap : (tts.hasCloneVoice || tts.hasCreateVoice) = true
        · rw [if_pos hcap, hclone]
          exact synthesize_raise_fallback env text _ e htext hgen
        · rw [if_neg hcap]
          by_cases hfile : tts.hasTtsToFile = true
          · rw [if_pos hfile, hclone]
            exact synthesize_raise_fallback env text _ e htext hgen
          · rw [if_neg hfile]
            exact synthesize_raise_fallback env text _ e htext hgen

theorem clone_result_shape (env : Env) (text : String)
    (refPath : Option String) (vname : String)
    (htext : ¬(text = "" ∨ pyStrip text = "")) :
    (clone_voice_from_audio env text refPath vname).result =
      create_fallback_audio env text ∨
    ∃ a, (clone_voice_from_audio env text refPath vname).result = some a := by
  rw [clone_voice_from_audio.eq_def, if_neg htext]
  rcases refPath with _ | p
  · exact synthesize_result_shape env text _ htext
  · dsimp only
    by_cases hpe : (p = "" ∨ env.refExists = false)
    · rw [if_pos hpe]
      exact synthesize_result_shape env text _ htext
    · rw [if_neg hpe]
      rcases ht : env.tts with _ | tts
      · simp [ht]
      · simp only [ht]
        by_cases hcap : (tts.hasCloneVoice || tts.hasCreateVoice) = true
        · rw [if_pos hcap]
          rcases hc : env.cloneRaises with _ | e2
          · simp only [hc]
            split_ifs <;> simp
          · simp only [hc]
            exact synthesize_result_shape env text _ htext
        · rw [if_neg hcap]
          by_cases hfile : tts.hasTtsToFile = true
          · rw [if_pos hfile]
            rcases hc : env.cloneRaises with _ | e2
            · simp [hc]
            · simp only [hc]
              exact synthesize_result_shape env text _ htext
          · rw [if_neg hfile]
            exact synthesize_result_shape env text _ htext

/-! ## Claim C8 -/

/-- C8 fails on the code as stated: when only the cloning call raises, the
handlers at `chatterbox_demo.py:286-288` and `293-295` return
`synthesize_tts(text)`, whose own backend call can succeed — here a Coqui
backend whose `tts_to_file(..., speaker_wav=...)` cloning call raises
`"boom"` while plain generation works, so the clone call returns a real
backend artifact, not a fallback-codec artifact for the original text. -/
theorem clone_exception_not_fallback_artifact :
    (⟨some ⟨false, true, false, false, false, false, false⟩, demoCatalog,
        none, some "boom", true, true, true⟩ : Env).cloneRaises = some "boom" ∧
    (clone_voice_from_audio
      ⟨some ⟨false, true, false, false, false, false, false⟩, demoCatalog,
        none, some "boom", true, true, true⟩ "Hi" (some "ref.wav") "X").result =
      some (.coquiWav "Hi") ∧
    (clone_voice_from_audio
      ⟨some ⟨false, true, false, false, false, false, false⟩, demoCatalog,
        none, some "boom", true, true, true⟩ "Hi" (some "ref.wav") "X").result ≠
      create_fallback_audio
        ⟨some ⟨false, true, false, false, false, false, false⟩, demoCatalog,
          none, some "boom", true, true, true⟩ "Hi" := by
  refine ⟨rfl, by decide, by decide⟩

/-- C8 (amended): an exception raised by the resolved backend during
`synthesize_tts` generation is caught at the adapter boundary and converted
into a fallback-codec artifact for the original text; an exception raised
during a `clone_voice_from_audio` cloning call is caught and degrades the
call to a plain `synthesize_tts` of the same text with the default
selection — which can return a real backend artifact and itself bottoms
out in the fallback codec for the original text when its backend call also
raises; no backend exception escapes either call (both are total functions
here), and the result is `None` only when even the fallback codec fails at
both its stages (gTTS and the silent WAV write). -/
theorem backend_exception_handling (env : Env) (text sel : String)
    (refPath : Option String) (vname : String) :
    (∀ e, env.genRaises = some e → ¬(text = "" ∨ pyStrip text = "") →
      (synthesize_tts env text sel).result = create_fallback_audio env text) ∧
    (∀ e2 p tts, env.cloneRaises = some e2 →
      ¬(text = "" ∨ pyStrip text = "") →
      refPath = some p → p ≠ "" → env.refExists = true → env.tts = some tts →
      ((tts.hasCloneVoice || tts.hasCreateVoice) = true ∨
        tts.hasTtsToFile = true) →
      clone_voice_from_audio env text refPath vname =
        synthesize_tts env text "Default (Fallback)") ∧
    (∀ e e2, env.genRaises = some e → env.cloneRaises = some e2 →
      ¬(text = "" ∨ pyStrip text = "") →
      (clone_voice_from_audio env text refPath vname).result =
        create_fallback_audio env text) ∧
    ((synthesize_tts env text sel).result = none →
      env.gttsFallbackWorks = false ∧ env.silentWriteOk = false) ∧
    ((clone_voice_from_audio env text refPath vname).result = none →
      env.gttsFallbackWorks = false ∧ env.silentWriteOk = false) := by
  refine ⟨?_, ?_, ?_, ?_, ?_⟩
  · intro e hg ht
    exact synthesize_raise_fallback env text sel e ht hg
  · intro e2 p tts hclone htext href hpne hex htts hcap
    rw [clone_voice_from_audio.eq_def, if_neg htext, href]
    dsimp only
    have hpe : ¬(p = "" ∨ env.refExists = false) := by
      simp [hpne, hex]
    rw [if_neg hpe, htts]
    dsimp only
    rcases hcap with hcv | hfile
    · rw [if_pos hcv, hclone]
    · by_cases hcv2 : (tts.hasCloneVoice || tts.hasCreateVoice) = true
      · rw [if_pos hcv2, hclone]
      · rw [if_neg hcv2, if_pos hfile, hclone]
  · intro e e2 hg hc ht
    exact clone_raise_fallback env text refPath vname e e2 ht hg hc
  · intro hnone
    by_cases hb : (text = "" ∨ pyStrip text = "")
    · rw [synthesize_tts, if_pos hb] at hnone
      exact (create_fallback_audio_none_iff env _).mp hnone
    · rcases synthesize_result_shape env text sel hb with h | ⟨a, ha⟩
      · rw [h] at hnone
        exact (create_fallback_audio_none_iff env text).mp hnone
      · rw [ha] at hnone
        exact absurd hnone (by simp)
  · intro hnone
    by_cases hb : (text = "" ∨ pyStrip text = "")
    · rw [clone_voice_from_audio.eq_def, if_pos hb] at hnone
      exact (create_fallback_audio_none_iff env _).mp hnone
    · rcases clone_result_shape env text refPath vname hb with h | ⟨a, ha⟩
      · rw [h] at hnone
        exact (create_fallback_audio_none_iff env text).mp hnone
      · rw [ha] at hnone
        exact absurd hnone (by simp)

/-- Witness for the amended C8: a Coqui-style backend whose cloning call
raises degrades the clone call to the plain default-selection
`synthesize_tts` of the same text. -/
theorem backend_exception_handling_witness :
    clone_voice_from_audio
      ⟨some ⟨false, true, false, false, false, false, false⟩, demoCatalog,
        none, some "boom", true, true, true⟩ "Hi" (some "ref.wav") "X" =
      synthesize_tts
        ⟨some ⟨false, true, false, false, false, false, false⟩, demoCatalog,
          none, some "boom", true, true, true⟩ "Hi" "Default (Fallback)" :=
  (backend_exception_handling _ "Hi" "Default (Fallback)"
      (some "ref.wav") "X").2.1 "boom" "ref.wav"
    ⟨false, true, false, false, false, false, false⟩
    rfl (by decide) rfl (by decide) rfl rfl (Or.inr rfl)

/-! ## Claim C9 -/

/-- C9: `transcribe_audio` is a total function into strings — no exception
crosses the boundary.  When the transcription backend failed to load it
returns the fixed error string `"Error: Whisper model failed to load"` in
the normal text channel; when the transcription call itself raises, it
returns the message prefixed with `"Error transcribing audio: "`; and on
success it returns the space-joined segment texts. -/
theorem transcribe_error_channel (env : WhisperEnv) (audioPath : String) :
    (env.modelLoaded = false →
      transcribe_audio env audioPath = "Error: Whisper model failed to load") ∧
    (∀ msg, env.modelLoaded = true → env.call = .raised msg →
      transcribe_audio env audioPath = "Error transcribing audio: " ++ msg) ∧
    (∀ texts, env.modelLoaded = true → env.call = .segments texts →
      transcribe_audio env audioPath = String.intercalate " " texts) := by
  refine ⟨?_, ?_, ?_⟩
  · intro h
    rw [transcribe_audio, if_pos h]
  · intro msg hm hc
    rw [transcribe_audio, if_neg (by simp [hm]), hc]
  · intro texts hm hc
    rw [transcribe_audio, if_neg (by simp [hm]), hc]

/-- Witness for C9: with no loaded model the call returns the fixed error
string. -/
theorem transcribe_error_channel_witness :
    transcribe_audio ⟨false, .segments []⟩ "audio.wav" =
      "Error: Whisper model failed to load" :=
  (transcribe_error_channel ⟨false, .segments []⟩ "audio.wav").1 rfl

/-! ## Claim C10 helper -/

theorem labelList_length : ∀ (i : Nat) (vs : List Voice),
    (labelList i vs).length = vs.length := by
  intro i vs
  induction vs generalizing i with
  | nil => rfl
  | cons hd tl ih => simp [labelList, ih]

/-! ## Claim C10 -/

/-- C10: `get_voice_options` always returns the label of each resolved
voice followed by the sentinel `"Default (Fallback)"` as last element; in
particular it is never empty, contains the sentinel in every case, is
exactly the one-element sentinel list when no backend or no voices are
available, and has one more entry than the catalog. -/
theorem voice_options_sentinel (probe : ProbeEnv) (s : TTSState) :
    get_voice_options probe s =
      labelList 0 (initialize_tts probe s).voices ++ ["Default (Fallback)"] ∧
    get_voice_options probe s ≠ [] ∧
    "Default (Fallback)" ∈ get_voice_options probe s ∧
    ((initialize_tts probe s).voices = [] →
      get_voice_options probe s = ["Default (Fallback)"]) ∧
    (get_voice_options probe s).length =
      (initialize_tts probe s).voices.length + 1 ∧
    (get_voice_options probe s).getLast? = some "Default (Fallback)" := by
  have hmain : get_voice_options probe s =
      labelList 0 (initialize_tts probe s).voices ++ ["Default (Fallback)"] := by
    rw [get_voice_options]
    by_cases hv : (initialize_tts probe s).voices = []
    · simp [hv, labelList]
    · rw [if_neg hv]
  refine ⟨hmain, ?_, ?_, ?_, ?_, ?_⟩
  · rw [hmain]
    simp
  · rw [hmain]
    simp
  · intro hv
    rw [hmain, hv]
    simp [labelList]
  · rw [hmain]
    simp [labelList_length]
  · rw [hmain]
    simp

/-- Witness for C10: an unresolvable backend yields exactly the sentinel
list. -/
theorem voice_options_sentinel_witness :
    get_voice_options ⟨none, [], 1⟩ ⟨none, []⟩ = ["Default (Fallback)"] :=
  (voice_options_sentinel ⟨none, [], 1⟩ ⟨none, []⟩).2.2.2.1 rfl

end ChatterboxWhisper
